import Mathlib

/-!
A shallow embedding of the Windows jobserver backend (`src/windows.rs`).

The backing object is a named counting semaphore.  We model its state as a
pair of its current count and its maximum count; the Win32 calls
`WaitForSingleObject` (with timeout 0), `ReleaseSemaphore`,
`CreateSemaphoreA` and `OpenSemaphoreA` are modelled as pure functions over
that state.  Operations whose behaviour depends on the raw `DWORD` a wait
call returned (`try_acquire`, `acquire`, `available`, the helper's
per-request wait) are given in two layers: a core function taking the wait
result as an argument — a direct translation of the Rust `match`/`if` on
that result — and a deterministic composition with the normal semaphore
semantics of a zero-timeout wait.
-/

namespace Jobserver

/-- Win32 wait-result constants, from `src/windows.rs`. -/
def WAIT_ABANDONED : Nat := 128

/-- `WAIT_FAILED = 4294967295u32`. -/
def WAIT_FAILED : Nat := 4294967295

/-- `WAIT_OBJECT_0 = 0u32`. -/
def WAIT_OBJECT_0 : Nat := 0

/-- `WAIT_TIMEOUT = 258u32`. -/
def WAIT_TIMEOUT : Nat := 258

/-- `ERROR_ALREADY_EXISTS = 183`. -/
def ERROR_ALREADY_EXISTS : Nat := 183

/-- An `std::io::Error`: either a raw OS error code
(`io::Error::last_os_error()`) or a custom message
(`io::Error::new(ErrorKind::Other, msg)`). -/
inductive IoError where
  | osError (code : Nat)
  | other (msg : String)
deriving DecidableEq

/-- The `Acquired` token type of `src/windows.rs` (a unit struct). -/
inductive Acquired where
  | mk
deriving DecidableEq

/-- State of one Windows counting semaphore: its current count and the
maximum count it was created with. -/
structure Sem where
  count : Nat
  maxCount : Nat
deriving DecidableEq

/-- `WaitForSingleObject(sem, 0)` on a semaphore, normal platform
behaviour: if the count is positive the wait succeeds (`WAIT_OBJECT_0`)
and decrements the count, otherwise it times out (`WAIT_TIMEOUT`) and
leaves the count unchanged. -/
def waitZero (s : Sem) : Nat × Sem :=
  if 0 < s.count then (WAIT_OBJECT_0, ⟨s.count - 1, s.maxCount⟩)
  else (WAIT_TIMEOUT, s)

/-- `ReleaseSemaphore(sem, 1, &prev)`: succeeds returning the previous
count and incrementing the count, unless the release would exceed the
semaphore's maximum count, in which case it fails and the state is
unchanged. -/
def releaseSemaphore (s : Sem) : Option (Nat × Sem) :=
  if s.count + 1 ≤ s.maxCount then some (s.count, ⟨s.count + 1, s.maxCount⟩)
  else none

/-- Result type for `Client::try_acquire`: the Rust function returns
`io::Result<Option<Acquired>>` but additionally panics via `unreachable!`
on an unhandled wait result, which we record as a third constructor. -/
inductive TryAcqResult where
  | ok (t : Option Acquired)
  | err (e : IoError)
  | panicked (msg : String)
deriving DecidableEq

/-- `Client::try_acquire`, the `match` on the result `r` of
`WaitForSingleObject(self.sem.0, 0)`; `osErr` is the value
`io::Error::last_os_error()` would carry. -/
def try_acquireR (r : Nat) (osErr : Nat) : TryAcqResult :=
  if r = WAIT_OBJECT_0 then .ok (some .mk)
  else if r = WAIT_TIMEOUT then .ok none
  else if r = WAIT_FAILED then .err (.osError osErr)
  else if r = WAIT_ABANDONED then
    .err (.other "Wait on jobserver semaphore returned WAIT_ABANDONED")
  else .panicked "Unexpected return value from WaitForSingleObject"

/-- `Client::try_acquire` composed with the normal zero-timeout wait
semantics on the client's own semaphore; also returns the semaphore state
after the call. -/
def try_acquireSem (s : Sem) : TryAcqResult × Sem :=
  let ws := waitZero s
  (try_acquireR ws.1 0, ws.2)

/-- `Client::acquire`, the branch on the result `r` of
`WaitForSingleObject(self.sem.0, INFINITE)`: `Ok(Acquired)` on
`WAIT_OBJECT_0`, otherwise `Err(io::Error::last_os_error())`. -/
def acquireR (r : Nat) (osErr : Nat) : Except IoError Acquired :=
  if r = WAIT_OBJECT_0 then .ok .mk else .error (.osError osErr)

/-- `Client::release`: calls `ReleaseSemaphore(self.sem.0, 1, null)`;
`Ok(())` if it succeeded, otherwise `Err(io::Error::last_os_error())`.
Returns the new semaphore state on success. -/
def release (s : Sem) (osErr : Nat) : Except IoError Sem :=
  match releaseSemaphore s with
  | some pr => .ok pr.2
  | none => .error (.osError osErr)

/-- `Client::available`, after the initial wait: `r` is the result of
`WaitForSingleObject(self.sem.0, 0)` and `s` the semaphore state after
that wait.  If `r != WAIT_OBJECT_0` the function returns `Ok(0)`;
otherwise it calls `ReleaseSemaphore(self.sem.0, 1, &prev)` and returns
`Ok(prev + 1)` on success, `Err(io::Error::last_os_error())` on failure.
The returned pair carries the final semaphore state. -/
def availableCore (r : Nat) (s : Sem) (osErr : Nat) : Except IoError (Nat × Sem) :=
  if r ≠ WAIT_OBJECT_0 then .ok (0, s)
  else
    match releaseSemaphore s with
    | some pr => .ok (pr.1 + 1, pr.2)
    | none => .error (.osError osErr)

/-- `Client::available` composed with the normal zero-timeout wait
semantics on the client's own semaphore. -/
def available (s : Sem) (osErr : Nat) : Except IoError (Nat × Sem) :=
  let ws := waitZero s
  availableCore ws.1 ws.2 osErr

/-- Decimal rendering of a natural number as ASCII byte values,
accumulator form; the first argument is fuel (the dividend strictly
decreases, so fuel `m` suffices for dividend `m`). -/
def natDecimalGo : Nat → Nat → List Nat → List Nat
  | 0, _, acc => acc
  | fuel + 1, m, acc =>
    if m = 0 then acc else natDecimalGo fuel (m / 10) ((48 + m % 10) :: acc)

/-- The decimal digits of `n` as ASCII byte values: the embedding of
`format!("{}", bytes)` for a `u32` value. -/
def natDecimal (n : Nat) : List Nat :=
  if n = 0 then [48] else natDecimalGo n n []

/-- The bytes of a string literal. -/
def strBytes (s : String) : List Nat :=
  s.data.map Char.toNat

/-- The semaphore name `Client::new` stores after `name.pop()`:
`format!("__rust_jobserver_semaphore_{}", bytes)` without the trailing
nul.  This is also the kernel object's name (the name handed to
`CreateSemaphoreA` is this followed by the nul terminator). -/
def nameBody (bytes : Nat) : List Nat :=
  strBytes "__rust_jobserver_semaphore_" ++ natDecimal bytes

/-- The formatted buffer `format!("__rust_jobserver_semaphore_{}\0", bytes)`
produced inside `Client::new`, trailing nul included. -/
def genName (bytes : Nat) : List Nat :=
  nameBody bytes ++ [0]

/-- The system-wide namespace of named semaphores: object name (without
nul terminator) paired with the semaphore's state. -/
abbrev Registry : Type := List (List Nat × Sem)

/-- The `Client` struct: its semaphore and its stored `name` string. -/
structure Client where
  sem : Sem
  name : List Nat
deriving DecidableEq

/-- `Client::string_arg`: returns a clone of the stored name. -/
def Client.string_arg (c : Client) : List Nat := c.name

/-- The retry loop of `Client::new` (`for _ in 0..100`), fuel counting
the remaining iterations and `i` the current iteration index.
`rand i` models the `getrandom::u32()?` draw of iteration `i`; `createFail
i = some e` models `CreateSemaphoreA` returning null on iteration `i`
with `last_os_error()` equal to `e`.  When creation does not hard-fail:
if the candidate object name is already registered, `last_os_error()` is
`ERROR_ALREADY_EXISTS` and the loop continues; otherwise the semaphore is
created with initial and maximum count `create_limit` (which is 1 when
`limit == 0`), the trailing nul is popped from the stored name, and when
`create_limit != limit` one token is acquired via `client.acquire()?` — a
blocking wait that succeeds at once because the fresh semaphore's count
is `create_limit = 1 > 0`. -/
def clientNewGo (limit : Nat) (rand : Nat → Nat) (createFail : Nat → Option Nat)
    (reg : Registry) : Nat → Nat → Except IoError (Client × Registry)
  | _, 0 => .error (.other "failed to find a unique name for a semaphore")
  | i, fuel + 1 =>
    let name := genName (rand i)
    let objName := name.dropLast
    match createFail i with
    | some e => .error (.osError e)
    | none =>
      if (List.lookup objName reg).isSome then
        clientNewGo limit rand createFail reg (i + 1) fuel
      else
        let create_limit := if limit = 0 then 1 else limit
        let sem0 : Sem := ⟨create_limit, create_limit⟩
        let sem := if create_limit ≠ limit then ⟨sem0.count - 1, sem0.maxCount⟩ else sem0
        .ok (⟨sem, objName⟩, (objName, sem) :: reg)

/-- `Client::new(limit)`: the bounded retry loop, 100 attempts. -/
def clientNew (limit : Nat) (rand : Nat → Nat) (createFail : Nat → Option Nat)
    (reg : Registry) : Except IoError (Client × Registry) :=
  clientNewGo limit rand createFail reg 0 100

/-- `CString::new(s)`: fails exactly when the byte string contains a nul
byte (Rust's `NulError`). -/
def cstringNew (s : List Nat) : Option (List Nat) :=
  if 0 ∈ s then none else some s

/-- The `FromEnvErrorInner` variants `Client::open` can produce. -/
inductive FromEnvErrorInner where
  | cannotParse (msg : String)
  | cannotOpenPath (path : List Nat) (err : IoError)
deriving DecidableEq

/-- `Client::open(s)`: converts `s` to a `CString` (failing with
`CannotParse` on a nul byte), then calls `OpenSemaphoreA` on that name —
modelled as a lookup in the semaphore namespace: a null handle (failure
with `CannotOpenPath(s, last_os_error())`) exactly when no object of that
name exists; on success the client stores the opened semaphore and
`s.to_string()` as its name. -/
def openClient (s : List Nat) (reg : Registry) (osErr : Nat) :
    Except FromEnvErrorInner Client :=
  match cstringNew s with
  | none => .error (.cannotParse "nul byte found in provided data")
  | some name =>
    match List.lookup name reg with
    | some sem => .ok ⟨sem, s⟩
    | none => .error (.cannotOpenPath s (.osError osErr))

/-- One callback invocation made by the helper thread's closure `f`. -/
inductive CallbackArg where
  | okToken
  | errOs (e : IoError)
deriving DecidableEq

/-- The per-request body of the helper thread in `spawn_helper`: the
`match` on the result `r` of
`WaitForMultipleObjects(2, [event, sem], FALSE, INFINITE)`.
`WAIT_OBJECT_0` (the cancellation event) invokes no callback;
`WAIT_OBJECT_0 + 1` (the jobserver semaphore) invokes `f` once with
`Ok(Acquired)`; anything else invokes `f` once with
`Err(io::Error::last_os_error())`.  The returned list is the sequence of
callback invocations for this request. -/
def helperServeRequest (r : Nat) (osErr : Nat) : List CallbackArg :=
  if r = WAIT_OBJECT_0 then []
  else if r = WAIT_OBJECT_0 + 1 then [.okToken]
  else [.errOs (.osError osErr)]

/-! ### Theorems for the claims -/

/-- C2: `try_acquire` performs a zero-timeout wait with exactly three
contract outcomes — `Ok(Some(token))` when a token is obtained
(`WAIT_OBJECT_0`), `Ok(None)` when none is available right now
(`WAIT_TIMEOUT`), `Err` carrying the platform error when the wait
hard-fails (`WAIT_FAILED`) — and an abandoned wait result
(`WAIT_ABANDONED`) is mapped to a distinct error value, never to
success, a retry, or `None`. -/
theorem C2_try_acquire_outcomes (osErr : Nat) :
    try_acquireR WAIT_OBJECT_0 osErr = .ok (some .mk) ∧
    try_acquireR WAIT_TIMEOUT osErr = .ok none ∧
    try_acquireR WAIT_FAILED osErr = .err (.osError osErr) ∧
    try_acquireR WAIT_ABANDONED osErr =
      .err (.other "Wait on jobserver semaphore returned WAIT_ABANDONED") ∧
    IoError.other "Wait on jobserver semaphore returned WAIT_ABANDONED" ≠
      IoError.osError osErr := by
  refine ⟨rfl, rfl, rfl, rfl, ?_⟩
  intro h
  exact IoError.noConfusion h

/-- C7: for each request the helper's worker serves, the outcome is
determined by the two-way wait: if the cancellation event
(`WAIT_OBJECT_0`) wins, no callback is invoked; if the pool's semaphore
(`WAIT_OBJECT_0 + 1`) wins, the callback is invoked exactly once with a
successful token; if the wait call itself fails (`WAIT_FAILED`), the
callback is invoked exactly once with the platform error; and in every
case at most one callback is invoked for the request. -/
theorem C7_helper_outcomes (osErr : Nat) :
    helperServeRequest WAIT_OBJECT_0 osErr = [] ∧
    helperServeRequest (WAIT_OBJECT_0 + 1) osErr = [.okToken] ∧
    helperServeRequest WAIT_FAILED osErr = [.errOs (.osError osErr)] ∧
    ∀ r, (helperServeRequest r osErr).length ≤ 1 := by
  refine ⟨rfl, rfl, rfl, ?_⟩
  intro r
  unfold helperServeRequest
  split
  · exact Nat.zero_le 1
  · split <;> exact Nat.le_refl 1

/-- C10: `try_acquire` is not total over all wait results: for any wait
return value outside the four handled constants it panics via
`unreachable!` instead of returning an error value, so the `Err` branch
of its result never carries such a case. -/
theorem C10_try_acquire_unhandled (r osErr : Nat)
    (h0 : r ≠ WAIT_OBJECT_0) (h1 : r ≠ WAIT_TIMEOUT)
    (h2 : r ≠ WAIT_FAILED) (h3 : r ≠ WAIT_ABANDONED) :
    try_acquireR r osErr =
      .panicked "Unexpected return value from WaitForSingleObject" ∧
    ∀ e, try_acquireR r osErr ≠ .err e := by
  have hval : try_acquireR r osErr =
      .panicked "Unexpected return value from WaitForSingleObject" := by
    unfold try_acquireR
    rw [if_neg h0, if_neg h1, if_neg h2, if_neg h3]
  refine ⟨hval, ?_⟩
  intro e he
  rw [hval] at he
  exact TryAcqResult.noConfusion he

/-- Witness for C10 at the concrete unhandled wait result 1. -/
theorem C10_try_acquire_unhandled_witness :
    try_acquireR 1 0 =
      .panicked "Unexpected return value from WaitForSingleObject" :=
  (C10_try_acquire_unhandled 1 0 (by decide) (by decide) (by decide)
    (by decide)).1

/-- C4 counterexample: in `Client::available`, a probe wait that returns
the hard failure `WAIT_FAILED` is converted into the normal value
`Ok(0)` (the code tests only `r != WAIT_OBJECT_0`), so a hard wait
failure is not surfaced to the caller as an error there. -/
theorem C4_available_swallows_wait_failure :
    availableCore WAIT_FAILED ⟨0, 1⟩ 5 = .ok (0, ⟨0, 1⟩) := by
  rfl

/-- C4 amended: a wait returning the hard failure `WAIT_FAILED` is
surfaced as an error carrying the platform error by `acquire`,
`try_acquire` and the helper's per-request wait — never converted into a
success or a normal value — but `available` is the exception: its probe
wait treats any non-`WAIT_OBJECT_0` result, a hard failure included, as
zero availability and returns `Ok(0)`. -/
theorem C4_wait_failures_surfaced (osErr : Nat) (s : Sem) :
    acquireR WAIT_FAILED osErr = .error (.osError osErr) ∧
    try_acquireR WAIT_FAILED osErr = .err (.osError osErr) ∧
    helperServeRequest WAIT_FAILED osErr = [.errOs (.osError osErr)] ∧
    availableCore WAIT_FAILED s osErr = .ok (0, s) := by
  refine ⟨rfl, rfl, rfl, ?_⟩
  unfold availableCore
  rw [if_pos]
  intro h
  exact absurd h (by decide)

/-- The buffer formatted in `Client::new` minus its last byte is the
object name (the trailing nul is popped). -/
theorem genName_dropLast (b : Nat) : (genName b).dropLast = nameBody b := by
  unfold genName
  rw [List.dropLast_concat]

/-- The semaphore state a fresh `Client::new(limit)` client ends with:
created with `create_limit` slots (`1` when `limit == 0`, else `limit`),
then one token acquired exactly when `create_limit != limit`. -/
def semOf (limit : Nat) : Sem :=
  let create_limit := if limit = 0 then 1 else limit
  let sem0 : Sem := ⟨create_limit, create_limit⟩
  if create_limit ≠ limit then ⟨sem0.count - 1, sem0.maxCount⟩ else sem0

/-- With no fuel left, the retry loop reports the distinct unique-name
failure. -/
theorem clientNewGo_exhausted (limit : Nat) (rand : Nat → Nat)
    (cf : Nat → Option Nat) (reg : Registry) (i : Nat) :
    clientNewGo limit rand cf reg i 0 =
      .error (.other "failed to find a unique name for a semaphore") := rfl

/-- One unfolding step of the retry loop, stated with `semOf`. -/
theorem clientNewGo_succ_eq (limit : Nat) (rand : Nat → Nat)
    (cf : Nat → Option Nat) (reg : Registry) (i fuel : Nat) :
    clientNewGo limit rand cf reg i (fuel + 1) =
      match cf i with
      | some e => .error (.osError e)
      | none =>
        if (List.lookup (genName (rand i)).dropLast reg).isSome = true then
          clientNewGo limit rand cf reg (i + 1) fuel
        else
          .ok (⟨semOf limit, (genName (rand i)).dropLast⟩,
               ((genName (rand i)).dropLast, semOf limit) :: reg) := rfl

/-- A hard `CreateSemaphoreA` failure aborts the loop at once with the
platform error. -/
theorem clientNewGo_fail (limit : Nat) (rand : Nat → Nat)
    (cf : Nat → Option Nat) (reg : Registry) (i fuel e : Nat)
    (hcf : cf i = some e) :
    clientNewGo limit rand cf reg i (fuel + 1) = .error (.osError e) := by
  rw [clientNewGo_succ_eq, hcf]

/-- A name collision (`ERROR_ALREADY_EXISTS`) makes the loop move on to
the next candidate name. -/
theorem clientNewGo_collide (limit : Nat) (rand : Nat → Nat)
    (cf : Nat → Option Nat) (reg : Registry) (i fuel : Nat)
    (hcf : cf i = none)
    (hlook : (List.lookup (genName (rand i)).dropLast reg).isSome = true) :
    clientNewGo limit rand cf reg i (fuel + 1) =
      clientNewGo limit rand cf reg (i + 1) fuel := by
  rw [clientNewGo_succ_eq, hcf]
  rw [if_pos hlook]

/-- With a fresh candidate name and no creation failure, the loop stops
and returns the new client, registering its semaphore under the new
name. -/
theorem clientNewGo_fresh (limit : Nat) (rand : Nat → Nat)
    (cf : Nat → Option Nat) (reg : Registry) (i fuel : Nat)
    (hcf : cf i = none)
    (hlook : List.lookup (genName (rand i)).dropLast reg = none) :
    clientNewGo limit rand cf reg i (fuel + 1) =
      .ok (⟨semOf limit, (genName (rand i)).dropLast⟩,
           ((genName (rand i)).dropLast, semOf limit) :: reg) := by
  rw [clientNewGo_succ_eq, hcf, hlook]
  rfl

/-- Every successful run of the `Client::new` retry loop stores a name of
the shape `__rust_jobserver_semaphore_{bytes}` (nul popped) and registers
the client's semaphore under exactly that name. -/
theorem clientNewGo_ok_shape (limit : Nat) (rand : Nat → Nat)
    (cf : Nat → Option Nat) (reg : Registry) :
    ∀ fuel i c reg',
      clientNewGo limit rand cf reg i fuel = .ok (c, reg') →
      ∃ b, c.name = nameBody b ∧ c.sem = semOf limit ∧
        reg' = (c.name, c.sem) :: reg := by
  intro fuel
  induction fuel with
  | zero =>
    intro i c reg' h
    rw [clientNewGo_exhausted] at h
    exact Except.noConfusion h
  | succ n ih =>
    intro i c reg' h
    cases hcf : cf i with
    | some e =>
      rw [clientNewGo_fail limit rand cf reg i n e hcf] at h
      exact Except.noConfusion h
    | none =>
      cases hlook : List.lookup (genName (rand i)).dropLast reg with
      | some sem =>
        rw [clientNewGo_collide limit rand cf reg i n hcf
          (by rw [hlook]; rfl)] at h
        exact ih (i + 1) c reg' h
      | none =>
        rw [clientNewGo_fresh limit rand cf reg i n hcf hlook] at h
        have hp := Except.ok.inj h
        have hc : c = ⟨semOf limit, (genName (rand i)).dropLast⟩ :=
          (Prod.mk.injEq _ _ _ _ ▸ hp).1.symm
        have hr : reg' = ((genName (rand i)).dropLast, semOf limit) :: reg :=
          (Prod.mk.injEq _ _ _ _ ▸ hp).2.symm
        refine ⟨rand i, ?_, ?_, ?_⟩
        · rw [hc, genName_dropLast]
        · rw [hc]
        · rw [hr, hc, genName_dropLast]

/-- Every byte of the decimal rendering is an ASCII digit (or came from
the accumulator). -/
theorem natDecimalGo_mem (fuel : Nat) :
    ∀ m acc x, x ∈ natDecimalGo fuel m acc → 48 ≤ x ∨ x ∈ acc := by
  induction fuel with
  | zero =>
    intro m acc x hx
    exact Or.inr hx
  | succ n ih =>
    intro m acc x hx
    unfold natDecimalGo at hx
    by_cases hm : m = 0
    · rw [if_pos hm] at hx
      exact Or.inr hx
    · rw [if_neg hm] at hx
      rcases ih (m / 10) ((48 + m % 10) :: acc) x hx with h | h
      · exact Or.inl h
      · rcases List.mem_cons.mp h with h | h
        · exact Or.inl (h ▸ Nat.le_add_right 48 (m % 10))
        · exact Or.inr h

/-- The decimal rendering of a number contains no nul byte. -/
theorem natDecimal_no_nul (n : Nat) : 0 ∉ natDecimal n := by
  intro h
  unfold natDecimal at h
  by_cases hn : n = 0
  · rw [if_pos hn] at h
    rcases List.mem_cons.mp h with h | h
    · exact absurd h (by decide)
    · exact List.not_mem_nil 0 h
  · rw [if_neg hn] at h
    rcases natDecimalGo_mem n n [] 0 h with h48 | hnil
    · omega
    · exact List.not_mem_nil 0 hnil

/-- A generated semaphore name (nul terminator popped) contains no nul
byte, so it is always accepted by `CString::new`. -/
theorem nameBody_no_nul (b : Nat) : 0 ∉ nameBody b := by
  intro h
  unfold nameBody at h
  rcases List.mem_append.mp h with h | h
  · exact absurd h (by decide)
  · exact natDecimal_no_nul b h

/-- C3: `available()` implements its probe as: perform a zero-timeout
acquire; if it does not succeed, return `Ok(0)`; if it succeeds,
immediately release the token back (restoring the semaphore state) and
return the count observed just before that release plus one. -/
theorem C3_available_probe (s : Sem) (osErr : Nat) (h : s.count ≤ s.maxCount) :
    (s.count = 0 → available s osErr = .ok (0, s)) ∧
    (0 < s.count →
      (waitZero s).1 = WAIT_OBJECT_0 ∧
      releaseSemaphore (waitZero s).2 = some ((waitZero s).2.count, s) ∧
      available s osErr = .ok ((waitZero s).2.count + 1, s)) := by
  have havail : available s osErr =
      availableCore (waitZero s).1 (waitZero s).2 osErr := rfl
  constructor
  · intro h0
    have hw0 : waitZero s = (WAIT_TIMEOUT, s) := by
      unfold waitZero
      rw [if_neg (by omega)]
    rw [havail, hw0]
    rfl
  · intro hpos
    have hw : waitZero s = (WAIT_OBJECT_0, ⟨s.count - 1, s.maxCount⟩) := by
      unfold waitZero
      rw [if_pos hpos]
    have hs : Sem.mk s.count s.maxCount = s := rfl
    have hr : releaseSemaphore ⟨s.count - 1, s.maxCount⟩ =
        some (s.count - 1, s) := by
      unfold releaseSemaphore
      rw [if_pos (by simp only; omega)]
      simp only
      rw [show s.count - 1 + 1 = s.count by omega, hs]
    refine ⟨by rw [hw], by rw [hw]; exact hr, ?_⟩
    rw [havail, hw]
    show availableCore WAIT_OBJECT_0 ⟨s.count - 1, s.maxCount⟩ osErr =
      .ok (s.count - 1 + 1, s)
    unfold availableCore
    rw [if_neg (by decide), hr]

/-- Witness for C3 on a semaphore of count 2, maximum 3. -/
theorem C3_available_probe_witness :
    available ⟨2, 3⟩ 0 = .ok ((waitZero ⟨2, 3⟩).2.count + 1, ⟨2, 3⟩) :=
  ((C3_available_probe ⟨2, 3⟩ 0 (by decide)).2 (by decide)).2.2

/-- C9: `release` increments the pool's available count by exactly one
when the underlying `ReleaseSemaphore` succeeds, and returns an error
exactly when that call fails (releasing would exceed the configured
maximum); on a capacity-1 pool, after one acquire followed by one
release a subsequent `try_acquire` succeeds. -/
theorem C9_release_increments (s : Sem) (osErr : Nat) :
    (s.count + 1 ≤ s.maxCount →
      release s osErr = .ok ⟨s.count + 1, s.maxCount⟩) ∧
    (s.maxCount < s.count + 1 →
      release s osErr = .error (.osError osErr)) ∧
    try_acquireSem ⟨1, 1⟩ = (.ok (some .mk), ⟨0, 1⟩) ∧
    release ⟨0, 1⟩ osErr = .ok ⟨1, 1⟩ ∧
    (try_acquireSem ⟨1, 1⟩).1 = .ok (some .mk) := by
  refine ⟨?_, ?_, rfl, rfl, rfl⟩
  · intro hle
    unfold release releaseSemaphore
    rw [if_pos hle]
  · intro hgt
    unfold release releaseSemaphore
    rw [if_neg (by omega)]

/-- Witness for C9: a successful release on a semaphore of count 0,
maximum 2, and a failed release on a full semaphore of count 2,
maximum 2. -/
theorem C9_release_increments_witness :
    release ⟨0, 2⟩ 7 = .ok ⟨1, 2⟩ ∧
    release ⟨2, 2⟩ 7 = .error (.osError 7) :=
  ⟨(C9_release_increments ⟨0, 2⟩ 7).1 (by decide),
   (C9_release_increments ⟨2, 2⟩ 7).2.1 (by decide)⟩

/-- C5 counterexample: attaching with the empty identity does not fail
with the malformed-identity (`CannotParse`) error — `CString::new("")`
succeeds, and when no semaphore of the empty name exists the result is
the attach-failed (`CannotOpenPath`) error. -/
theorem C5_attach_empty_not_malformed :
    openClient [] [] 2 = .error (.cannotOpenPath [] (.osError 2)) := by
  rfl

/-- C5 amended: attaching with an identity containing a nul byte (one
not representable as a C string) fails with the malformed-identity
(`CannotParse`) error class and never with attach-failed; a nul-free
identity — the empty identity included — whose backing object cannot be
opened fails with the attach-failed (`CannotOpenPath`) error carrying
the offending identity and the underlying platform error; the empty
identity never produces the malformed-identity error. -/
theorem C5_identity_validation (s : List Nat) (reg : Registry) (osErr : Nat) :
    (0 ∈ s →
      openClient s reg osErr =
        .error (.cannotParse "nul byte found in provided data") ∧
      ∀ p e, openClient s reg osErr ≠ .error (.cannotOpenPath p e)) ∧
    (0 ∉ s → List.lookup s reg = none →
      openClient s reg osErr =
        .error (.cannotOpenPath s (.osError osErr))) ∧
    (∀ msg, openClient [] reg osErr ≠ .error (.cannotParse msg)) := by
  refine ⟨?_, ?_, ?_⟩
  · intro hmem
    have hval : openClient s reg osErr =
        .error (.cannotParse "nul byte found in provided data") := by
      unfold openClient cstringNew
      rw [if_pos hmem]
    refine ⟨hval, ?_⟩
    intro p e he
    rw [hval] at he
    have := Except.error.inj he
    exact FromEnvErrorInner.noConfusion this
  · intro hmem hlook
    unfold openClient cstringNew
    rw [if_neg hmem]
    simp only [hlook]
  · intro msg
    cases hl : List.lookup ([] : List Nat) reg with
    | none =>
      intro he
      have heq : openClient [] reg osErr =
          .error (.cannotOpenPath [] (.osError osErr)) := by
        unfold openClient cstringNew
        rw [if_neg (List.not_mem_nil 0)]
        simp only [hl]
      rw [heq] at he
      exact FromEnvErrorInner.noConfusion (Except.error.inj he)
    | some sem =>
      intro he
      have heq : openClient [] reg osErr = .ok ⟨sem, []⟩ := by
        unfold openClient cstringNew
        rw [if_neg (List.not_mem_nil 0)]
        simp only [hl]
      rw [heq] at he
      exact Except.noConfusion he

/-- Witness for C5 amended: an identity holding a nul byte is rejected
as malformed; the nul-free identity `[7]` with no backing object fails
as attach-failed. -/
theorem C5_identity_validation_witness :
    openClient [0] [] 5 =
      .error (.cannotParse "nul byte found in provided data") ∧
    openClient [7] [] 5 = .error (.cannotOpenPath [7] (.osError 5)) :=
  ⟨((C5_identity_validation [0] [] 5).1 (by decide)).1,
   (C5_identity_validation [7] [] 5).2.1 (by decide) rfl⟩

/-- C1: originating a pool with capacity 0 creates the backing semaphore
with capacity 1 and synchronously acquires its one token, never
releasing it, so the resulting client's semaphore has maximum count 1
and current count 0; on that client `try_acquire()` returns `None` and
`available()` reports 0. -/
theorem C1_zero_capacity (rand : Nat → Nat) :
    clientNew 0 rand (fun _ => none) [] =
      .ok (⟨⟨0, 1⟩, nameBody (rand 0)⟩, [(nameBody (rand 0), ⟨0, 1⟩)]) ∧
    try_acquireSem ⟨0, 1⟩ = (.ok none, ⟨0, 1⟩) ∧
    available ⟨0, 1⟩ 0 = .ok (0, ⟨0, 1⟩) := by
  refine ⟨?_, rfl, rfl⟩
  show clientNewGo 0 rand (fun _ => none) [] 0 (99 + 1) = _
  rw [clientNewGo_fresh 0 rand (fun _ => none) [] 0 99 rfl rfl,
    genName_dropLast]
  rfl

/-- C6: origination generates a randomized candidate name per iteration
of a 100-attempt retry loop; it retries exactly on a name collision,
returns any hard creation failure immediately as a fatal error, stops at
the first fresh name, and after exhausting the retry budget returns the
distinct fatal unique-name error (which is not a platform `os_error`). -/
theorem C6_origination_retry (limit : Nat) (rand : Nat → Nat)
    (cf : Nat → Option Nat) (reg : Registry) (i fuel e : Nat) :
    (cf i = some e →
      clientNewGo limit rand cf reg i (fuel + 1) = .error (.osError e)) ∧
    (cf i = none →
      (List.lookup (genName (rand i)).dropLast reg).isSome = true →
      clientNewGo limit rand cf reg i (fuel + 1) =
        clientNewGo limit rand cf reg (i + 1) fuel) ∧
    (cf i = none →
      List.lookup (genName (rand i)).dropLast reg = none →
      clientNewGo limit rand cf reg i (fuel + 1) =
        .ok (⟨semOf limit, (genName (rand i)).dropLast⟩,
             ((genName (rand i)).dropLast, semOf limit) :: reg)) ∧
    ((∀ j, cf j = none) →
      (∀ j, (List.lookup (genName (rand j)).dropLast reg).isSome = true) →
      clientNew limit rand cf reg =
        .error (.other "failed to find a unique name for a semaphore")) ∧
    (∀ m, IoError.other "failed to find a unique name for a semaphore" ≠
      IoError.osError m) := by
  refine ⟨clientNewGo_fail limit rand cf reg i fuel e,
    clientNewGo_collide limit rand cf reg i fuel,
    clientNewGo_fresh limit rand cf reg i fuel, ?_, ?_⟩
  · intro hcf hcol
    have hall : ∀ fl j, clientNewGo limit rand cf reg j fl =
        .error (.other "failed to find a unique name for a semaphore") := by
      intro fl
      induction fl with
      | zero =>
        intro j
        exact clientNewGo_exhausted limit rand cf reg j
      | succ n ih =>
        intro j
        rw [clientNewGo_collide limit rand cf reg j n (hcf j) (hcol j)]
        exact ih (j + 1)
    exact hall 100 0
  · intro m hm
    exact IoError.noConfusion hm

/-- Witness for C6: a hard creation failure with platform error 7 at the
first attempt is fatal at once, and a registry in which the only
candidate name (constant `rand`) is always taken exhausts the budget
into the distinct unique-name error. -/
theorem C6_origination_retry_witness :
    clientNewGo 1 (fun _ => 3) (fun _ => some 7) [] 0 (0 + 1) =
      .error (.osError 7) ∧
    clientNew 1 (fun _ => 3) (fun _ => none) [(nameBody 3, ⟨1, 1⟩)] =
      .error (.other "failed to find a unique name for a semaphore") :=
  ⟨(C6_origination_retry 1 (fun _ => 3) (fun _ => some 7) [] 0 0 7).1 rfl,
   (C6_origination_retry 1 (fun _ => 3) (fun _ => none) [(nameBody 3, ⟨1, 1⟩)]
      0 0 0).2.2.2.1 (fun _ => rfl) (fun _ => by decide)⟩

/-- C8: the identity string round-trips without loss: whenever
origination succeeds, the stored name (returned by `string_arg`) is
nul-free, so `Client::open` accepts it — `CString::new` succeeds — and,
the name having been registered by creation, the open succeeds and
yields a client for the very same backing semaphore. -/
theorem C8_identity_roundtrip (limit : Nat) (rand : Nat → Nat)
    (cf : Nat → Option Nat) (reg : Registry) (c : Client) (reg' : Registry)
    (osErr : Nat) (h : clientNew limit rand cf reg = .ok (c, reg')) :
    openClient c.string_arg reg' osErr = .ok ⟨c.sem, c.string_arg⟩ := by
  obtain ⟨b, hname, -, hreg⟩ :=
    clientNewGo_ok_shape limit rand cf reg 100 0 c reg' h
  have hnul : 0 ∉ c.string_arg := by
    show 0 ∉ c.name
    rw [hname]
    exact nameBody_no_nul b
  have hcs : cstringNew c.string_arg = some c.string_arg := by
    unfold cstringNew
    rw [if_neg hnul]
  unfold openClient
  rw [hcs, hreg]
  show (match List.lookup c.name ((c.name, c.sem) :: reg) with
    | some sem => Except.ok (⟨sem, c.name⟩ : Client)
    | none =>
      Except.error (FromEnvErrorInner.cannotOpenPath c.name
        (IoError.osError osErr))) = _
  rw [List.lookup_cons_self]
  rfl

/-- Witness for C8: a concrete origination of a capacity-1 pool whose
identity is then re-opened against the resulting registry. -/
theorem C8_identity_roundtrip_witness :
    openClient (Client.string_arg ⟨⟨1, 1⟩, nameBody 3⟩)
        [(nameBody 3, ⟨1, 1⟩)] 2 =
      .ok ⟨⟨1, 1⟩, Client.string_arg ⟨⟨1, 1⟩, nameBody 3⟩⟩ :=
  C8_identity_roundtrip 1 (fun _ => 3) (fun _ => none) [] ⟨⟨1, 1⟩, nameBody 3⟩
    [(nameBody 3, ⟨1, 1⟩)] 2 rfl

end Jobserver
